import Mathlib

/-!
Verification development for the LunneWeb air-hockey server core
(`World` class, `src/server/games/air-hockey/world.ts`).

The `World` orchestrator composes two `Player`s, one `Ball`, two `Team`s,
two compound goals and a p2 physics world.  The `World` class itself is in
the sources; the entity classes (`Ball`, `Player`, `Team`) and the
`TypedEvent` channel are only referenced through imports, so their few
behaviours are modelled from the specification where noted, each in its own
definition with a `Modelled from the spec:` doc comment.

Numbers are modelled as exact rationals (`ℚ`).  Physics bodies enter the
model only through their identity (`BodyId`), which is all the collision
classification in `World.onBeginContact` inspects.
-/

namespace AirHockey

/-- A 2-d vector, as used for positions, velocities and directions. -/
structure Vec2 where
  x : ℚ
  y : ℚ
deriving DecidableEq, Repr

/-- Squared Euclidean norm of a vector (exact in `ℚ`). -/
def Vec2.normSq (v : Vec2) : ℚ := v.x * v.x + v.y * v.y

/-- Scale a vector componentwise by a rational factor. -/
def Vec2.scale (k : ℚ) (v : Vec2) : Vec2 := ⟨k * v.x, k * v.y⟩

/-- A team's side, the only datum of the `Team` class the core consults
(`team.TeamSide` in `world.ts`). -/
inductive TeamSide where
  | left
  | right
deriving DecidableEq, Repr

/-- Identity of a physics body added to the p2 world by `World`.  The
collision handler compares bodies by reference equality; distinct
constructors model distinct body objects. -/
inductive BodyId where
  | floor
  | ceiling
  | wallRight
  | wallLeft
  | player1Body
  | player2Body
  | ballBody
  | goalTop (side : TeamSide)
  | goalBottom (side : TeamSide)
  | goalBack (side : TeamSide)
  | goalSensor (side : TeamSide)
deriving DecidableEq, Repr

/-- Modelled from the spec: per-entity-type constants of the missing
`ball.ts` and `player.ts` ("Diameter and max speed are fixed
per-entity-type constants"): the ball's `MAX_VELOCITY`, the player's
`DIAMETER` and the player's movement speed.  Their numeric values are not
in the sources, so they are parameters of the model. -/
structure Consts where
  ballMaxVelocity : ℚ
  playerDiameter : ℚ
  playerMoveSpeed : ℚ
deriving DecidableEq, Repr

/-- State of one `Player` entity: socket id, colour, team, physics state
(position, velocity), the stored pending direction, and the readiness
flag. -/
structure Player where
  socketId : String
  color : ℕ
  team : TeamSide
  position : Vec2
  velocity : Vec2
  direction : Vec2
  isReady : Bool
deriving DecidableEq, Repr

/-- Modelled from the spec: `Player.onUpdate` of the missing `player.ts`
("apply every player's pending direction to velocity", the direction
"stores desired movement; applied to velocity on the next pre-step
update"): the stored direction times the fixed movement speed becomes the
velocity. -/
def Player.onUpdate (speed : ℚ) (p : Player) : Player :=
  { p with velocity := ⟨speed * p.direction.x, speed * p.direction.y⟩ }

/-- Modelled from the spec: `Player.setPosition` of the missing `player.ts`
("teleport, used only for resets, zeroes velocity implicitly by overwriting
position"). -/
def Player.setPosition (pos : Vec2) (p : Player) : Player :=
  { p with position := pos, velocity := ⟨0, 0⟩ }

/-- Modelled from the spec: `Player.setDirection` of the missing
`player.ts` ("stores desired movement; applied to velocity on the next
pre-step update, not immediately"). -/
def Player.setDirection (dir : Vec2) (p : Player) : Player :=
  { p with direction := dir }

/-- State of the `Ball` entity: physics position and velocity. -/
structure Ball where
  position : Vec2
  velocity : Vec2
deriving DecidableEq, Repr

/-- Modelled from the spec: `Ball.onUpdate` of the missing `ball.ts`
("clamps velocity to max, applied every tick before stepping"): a velocity
whose speed exceeds the maximum is scaled back so its speed does not
exceed the maximum; slower velocities are untouched.  The scaling factor
`max² / |v|²` keeps the model inside `ℚ` (exact normalisation needs a
square root); it preserves the direction and brings the speed to at most
`max`. -/
def Ball.onUpdate (maxVel : ℚ) (b : Ball) : Ball :=
  if b.velocity.normSq ≤ maxVel ^ 2 then b
  else { b with velocity := Vec2.scale (maxVel ^ 2 / b.velocity.normSq) b.velocity }

/-- Modelled from the spec: `Ball.resetVelocity` of the missing `ball.ts`
("sets velocity to zero, or to a horizontal impulse toward the losing side
when a speed is supplied"). -/
def Ball.resetVelocity (signedSpeed : Option ℚ) (b : Ball) : Ball :=
  match signedSpeed with
  | none => { b with velocity := ⟨0, 0⟩ }
  | some s => { b with velocity := ⟨s, 0⟩ }

/-- Modelled from the spec: `Ball.setPosition` of the missing `ball.ts`
(listed separately from `resetVelocity`; it sets the body's position and
nothing else). -/
def Ball.setPosition (pos : Vec2) (b : Ball) : Ball :=
  { b with position := pos }

/-- The `ITeams` snapshot returned by `World.getTeams`:
`{ teamLeft, teamRight }`. -/
structure ITeams where
  teamLeft : TeamSide
  teamRight : TeamSide
deriving DecidableEq, Repr

/-- The scoring event `IGoalEvent` published on the goal emitter:
`{ allTeams, teamThatScored }`. -/
structure IGoalEvent where
  allTeams : ITeams
  teamThatScored : TeamSide
deriving DecidableEq, Repr

/-- State of a `World` (one air-hockey match).  `player1`/`player2` are
`players[0]`/`players[1]` of the source's two-element array.  `emitted` is
the log of events published through `goalEmitter.emit`;
`contactRegistered` records whether the `beginContact` handler from
`World.onBeginContact` is registered on the p2 world (true from
construction, false after `clear`); `goalListenerCount` counts listeners
registered on the `TypedEvent` goal emitter. -/
structure World where
  consts : Consts
  player1 : Player
  player2 : Player
  ball : Ball
  contactRegistered : Bool
  goalListenerCount : ℕ
  emitted : List IGoalEvent
deriving DecidableEq, Repr

namespace World

/-- `GAME_SIZE.width` (`world.ts`). -/
def gameWidth : ℚ := 1200

/-- `GAME_SIZE.height` (`world.ts`). -/
def gameHeight : ℚ := 600

/-- `BALL_INIT_VELOCITY` (`world.ts`). -/
def ballInitVelocity : ℚ := 40

/-- `World.getTeams` (`world.ts`): the two `Team` objects, by side. -/
def getTeams : ITeams := ⟨TeamSide.left, TeamSide.right⟩

/-- `World.resetPositions(scoreTeam?)` (`world.ts`): place `players[0]` at
`(width/4, height/2)`, `players[1]` at `(width/1.25 − Player.DIAMETER,
height/2)`, the ball at `(width/2, height/2)`; when a scoring team is
supplied, reset the ball velocity to `+BALL_INIT_VELOCITY` if the scorer
is the left team and `−BALL_INIT_VELOCITY` otherwise. -/
def resetPositions (scoreTeam : Option TeamSide) (w : World) : World :=
  let w := { w with
    player1 := w.player1.setPosition ⟨gameWidth / 4, gameHeight / 2⟩,
    player2 := w.player2.setPosition
      ⟨gameWidth / 1.25 - w.consts.playerDiameter, gameHeight / 2⟩,
    ball := w.ball.setPosition ⟨gameWidth / 2, gameHeight / 2⟩ }
  match scoreTeam with
  | some t =>
      let s : ℚ := if t = TeamSide.left then ballInitVelocity else -ballInitVelocity
      { w with ball := w.ball.resetVelocity (some s) }
  | none => w

/-- `World.reset(teamThatScored?)` (`world.ts`): delegates to
`resetPositions`. -/
def reset (scoreTeam : Option TeamSide) (w : World) : World :=
  w.resetPositions scoreTeam

/-- `new World(player1Id, player2Id)` (`world.ts`): builds both players
(left team red, right team blue), the ball, then calls `resetPositions()`
(no scoring team) and registers the contact handler.  Entity constructors
start physics bodies at the origin at rest; `resetPositions` immediately
overwrites the positions. -/
def construct (c : Consts) (player1Id player2Id : String) : World :=
  let w : World :=
    { consts := c,
      player1 := { socketId := player1Id, color := 0xff0000, team := TeamSide.left,
                   position := ⟨0, 0⟩, velocity := ⟨0, 0⟩, direction := ⟨0, 0⟩,
                   isReady := false },
      player2 := { socketId := player2Id, color := 0x0000ff, team := TeamSide.right,
                   position := ⟨0, 0⟩, velocity := ⟨0, 0⟩, direction := ⟨0, 0⟩,
                   isReady := false },
      ball := { position := ⟨0, 0⟩, velocity := ⟨0, 0⟩ },
      contactRegistered := true,
      goalListenerCount := 0,
      emitted := [] }
  w.resetPositions none

/-- `World.clear` (`world.ts`): `p2World.clear()` releases the bodies and
the `beginContact` listener; `goalEmitter.removeAllListeners()` drops all
goal listeners. -/
def clear (w : World) : World :=
  { w with contactRegistered := false, goalListenerCount := 0 }

/-- `World.movePlayer(id, data)` (`world.ts`): find the first player whose
`socketId` equals `id`; if none, log and return unchanged; otherwise store
the direction. -/
def movePlayer (id : String) (dir : Vec2) (w : World) : World :=
  if w.player1.socketId = id then { w with player1 := w.player1.setDirection dir }
  else if w.player2.socketId = id then { w with player2 := w.player2.setDirection dir }
  else w

/-- `World.setPlayerReady(id)` (`world.ts`): find the first player whose
`socketId` equals `id`; if none, log and return `false`; otherwise mark
that player ready and return whether every player is ready. -/
def setPlayerReady (id : String) (w : World) : Bool × World :=
  if w.player1.socketId = id then
    let w' := { w with player1 := { w.player1 with isReady := true } }
    (w'.player1.isReady && w'.player2.isReady, w')
  else if w.player2.socketId = id then
    let w' := { w with player2 := { w.player2 with isReady := true } }
    (w'.player1.isReady && w'.player2.isReady, w')
  else (false, w)

/-- The pre-step pass of `World.onHeartbeat` (`world.ts` line
`this.players.forEach((p) => p.onUpdate())`): apply each player's pending
direction to its velocity. -/
def applyDirections (w : World) : World :=
  { w with
    player1 := w.player1.onUpdate w.consts.playerMoveSpeed,
    player2 := w.player2.onUpdate w.consts.playerMoveSpeed }

/-- The clamp pass of `World.onHeartbeat` (`world.ts` line
`this.ball.onUpdate()`): clamp the ball's velocity to its maximum. -/
def clampBall (w : World) : World :=
  { w with ball := w.ball.onUpdate w.consts.ballMaxVelocity }

/-- Modelled from the spec: the external p2 engine's
`step(fixedDeltaTime, timeSinceLast, maxSubSteps)` ("advances every
dynamic body by exactly one logical tick", zero gravity): each dynamic
body's position advances by its velocity times the time step; velocities
are not changed by integration (gravity is zero).  Contact events the
engine fires during the step are modelled separately by
`handleBeginContact`; `maxSubSteps` is a solver-stability bound that does
not change the logical tick. -/
def physicsStep (timeStep : ℚ) (maxSubSteps : ℕ) (w : World) : World :=
  let _ := maxSubSteps
  { w with
    player1 := { w.player1 with position :=
      ⟨w.player1.position.x + w.player1.velocity.x * timeStep,
       w.player1.position.y + w.player1.velocity.y * timeStep⟩ },
    player2 := { w.player2 with position :=
      ⟨w.player2.position.x + w.player2.velocity.x * timeStep,
       w.player2.position.y + w.player2.velocity.y * timeStep⟩ },
    ball := { w.ball with position :=
      ⟨w.ball.position.x + w.ball.velocity.x * timeStep,
       w.ball.position.y + w.ball.velocity.y * timeStep⟩ } }

/-- `World.onHeartbeat(timeStep, maxSubSteps)` (`world.ts`): player
pre-step updates, then the ball clamp, then
`p2World.step(timeStep, timeStep, maxSubSteps)`. -/
def onHeartbeat (timeStep : ℚ) (maxSubSteps : ℕ) (w : World) : World :=
  physicsStep timeStep maxSubSteps (clampBall (applyDirections w))

/-- The collision classification of the `beginContact` handler
(`world.ts`, `World.onBeginContact`): if either body is `goals[0].goal`
(the left team's sensor, built first) the credited team is the right team;
otherwise if either body is `goals[1].goal` (the right team's sensor) the
credited team is the left team; otherwise none. -/
def classifyContact (bodyA bodyB : BodyId) : Option TeamSide :=
  if bodyA = BodyId.goalSensor TeamSide.left ∨ bodyB = BodyId.goalSensor TeamSide.left then
    some TeamSide.right
  else if bodyA = BodyId.goalSensor TeamSide.right ∨ bodyB = BodyId.goalSensor TeamSide.right then
    some TeamSide.left
  else
    none

/-- The `beginContact` handler registered by `World.onBeginContact`
(`world.ts`): when the handler is registered, classify the pair; if a team
was credited and either body is the ball's body, reset the ball's velocity
(to zero) and emit `{ allTeams, teamThatScored }` on the goal emitter. -/
def handleBeginContact (bodyA bodyB : BodyId) (w : World) : World :=
  if w.contactRegistered then
    match classifyContact bodyA bodyB with
    | some team =>
        if bodyA = BodyId.ballBody ∨ bodyB = BodyId.ballBody then
          { w with
            ball := w.ball.resetVelocity none,
            emitted := w.emitted ++ [{ allTeams := getTeams, teamThatScored := team }] }
        else w
    | none => w
  else w

/-- The results of a sequence of `setPlayerReady` calls, threading the
state. -/
def readyResults (w : World) (ids : List String) : List Bool :=
  match ids with
  | [] => []
  | id :: rest =>
      let r := w.setPlayerReady id
      r.1 :: readyResults r.2 rest

/-- The state after a sequence of `setPlayerReady` calls. -/
def applyReadyList (w : World) (ids : List String) : World :=
  match ids with
  | [] => w
  | id :: rest => applyReadyList (w.setPlayerReady id).2 rest

/-- One heartbeat tick together with the `beginContact` notifications the
p2 engine delivers during that step: `onHeartbeat`, then the registered
handler (if any) processes each contact pair in order. -/
def tickWithContacts (timeStep : ℚ) (maxSubSteps : ℕ)
    (contacts : List (BodyId × BodyId)) (w : World) : World :=
  contacts.foldl (fun w c => handleBeginContact c.1 c.2 w)
    (onHeartbeat timeStep maxSubSteps w)

/-- A sequence of heartbeat ticks, each with its time step, sub-step bound
and contact notifications. -/
def runTicks (w : World) (ticks : List (ℚ × ℕ × List (BodyId × BodyId))) : World :=
  match ticks with
  | [] => w
  | t :: rest => runTicks (tickWithContacts t.1 t.2.1 t.2.2 w) rest

end World

/-! ### Helper lemmas -/

theorem Vec2.normSq_nonneg (v : Vec2) : 0 ≤ v.normSq := by
  have hx := mul_self_nonneg v.x
  have hy := mul_self_nonneg v.y
  simpa [Vec2.normSq] using add_nonneg hx hy

theorem Vec2.normSq_scale (k : ℚ) (v : Vec2) :
    (Vec2.scale k v).normSq = k ^ 2 * v.normSq := by
  simp only [Vec2.normSq, Vec2.scale]
  ring

/-- The velocity clamp of `Ball.onUpdate` bounds the squared speed by the
square of the maximum velocity. -/
theorem Ball.onUpdate_normSq_le (maxVel : ℚ) (b : Ball) :
    ((b.onUpdate maxVel).velocity).normSq ≤ maxVel ^ 2 := by
  unfold Ball.onUpdate
  by_cases h : b.velocity.normSq ≤ maxVel ^ 2
  · simp only [h, if_true]
  · have hlt : maxVel ^ 2 < b.velocity.normSq := lt_of_not_le h
    have hpos : 0 < b.velocity.normSq := lt_of_le_of_lt (sq_nonneg maxVel) hlt
    simp only [h, if_false]
    rw [Vec2.normSq_scale]
    have hne : b.velocity.normSq ≠ 0 := ne_of_gt hpos
    have heq : (maxVel ^ 2 / b.velocity.normSq) ^ 2 * b.velocity.normSq
        = maxVel ^ 2 * maxVel ^ 2 / b.velocity.normSq := by
      field_simp
      ring
    rw [heq, div_le_iff₀ hpos]
    exact mul_le_mul_of_nonneg_left (le_of_lt hlt) (sq_nonneg maxVel)

/-! ### Claim theorems -/

open World

/-- Claim C5: every `onHeartbeat` call performs, in this order, the player
direction pass, the ball velocity clamp and exactly one physics step, and
mutates nothing else: the resulting player velocities are those produced
by the direction pass, the ball velocity is the clamped one, and ids,
colours, teams, readiness flags, stored directions, the event log, the
listener registrations and the constants are untouched. -/
theorem onHeartbeat_order_and_frame (w : World) (timeStep : ℚ) (maxSubSteps : ℕ) :
    onHeartbeat timeStep maxSubSteps w
      = physicsStep timeStep maxSubSteps (clampBall (applyDirections w))
    ∧ (onHeartbeat timeStep maxSubSteps w).player1.velocity
      = (w.player1.onUpdate w.consts.playerMoveSpeed).velocity
    ∧ (onHeartbeat timeStep maxSubSteps w).player2.velocity
      = (w.player2.onUpdate w.consts.playerMoveSpeed).velocity
    ∧ (onHeartbeat timeStep maxSubSteps w).ball.velocity
      = (w.ball.onUpdate w.consts.ballMaxVelocity).velocity
    ∧ (onHeartbeat timeStep maxSubSteps w).player1.socketId = w.player1.socketId
    ∧ (onHeartbeat timeStep maxSubSteps w).player2.socketId = w.player2.socketId
    ∧ (onHeartbeat timeStep maxSubSteps w).player1.color = w.player1.color
    ∧ (onHeartbeat timeStep maxSubSteps w).player2.color = w.player2.color
    ∧ (onHeartbeat timeStep maxSubSteps w).player1.team = w.player1.team
    ∧ (onHeartbeat timeStep maxSubSteps w).player2.team = w.player2.team
    ∧ (onHeartbeat timeStep maxSubSteps w).player1.isReady = w.player1.isReady
    ∧ (onHeartbeat timeStep maxSubSteps w).player2.isReady = w.player2.isReady
    ∧ (onHeartbeat timeStep maxSubSteps w).player1.direction = w.player1.direction
    ∧ (onHeartbeat timeStep maxSubSteps w).player2.direction = w.player2.direction
    ∧ (onHeartbeat timeStep maxSubSteps w).emitted = w.emitted
    ∧ (onHeartbeat timeStep maxSubSteps w).contactRegistered = w.contactRegistered
    ∧ (onHeartbeat timeStep maxSubSteps w).goalListenerCount = w.goalListenerCount
    ∧ (onHeartbeat timeStep maxSubSteps w).consts = w.consts := by
  refine ⟨rfl, ?_, ?_, ?_, ?_, ?_, ?_, ?_, ?_, ?_, ?_, ?_, ?_, ?_, ?_, ?_, ?_, ?_⟩ <;>
    simp [onHeartbeat, physicsStep, clampBall, applyDirections, Player.onUpdate,
      Ball.onUpdate]

/-- Claim C6: after every heartbeat tick, in any state, the ball's speed
is at most the configured maximum velocity (stated with squared norms,
which is `|v| ≤ max` in exact arithmetic). -/
theorem ball_speed_clamped_after_tick (w : World) (timeStep : ℚ) (maxSubSteps : ℕ) :
    ((onHeartbeat timeStep maxSubSteps w).ball.velocity).normSq
      ≤ w.consts.ballMaxVelocity ^ 2 := by
  have h := Ball.onUpdate_normSq_le w.consts.ballMaxVelocity
    ((applyDirections w).ball)
  have hball : (applyDirections w).ball = w.ball := rfl
  have hstep : (onHeartbeat timeStep maxSubSteps w).ball.velocity
      = ((applyDirections w).ball.onUpdate w.consts.ballMaxVelocity).velocity := by
    simp [onHeartbeat, physicsStep, clampBall, applyDirections]
  rw [hstep, hball]
  simpa [hball] using h

/-- Claim C7 counterexample: the claim places the right player at
`(width/1.25 − radius, height/2)`; the code subtracts the full
`Player.DIAMETER`.  With a player diameter of 60, construction places the
right player at x = 900, not at `1200/1.25 − 60/2 = 930`. -/
theorem construct_player2_not_at_radius_offset :
    (construct ⟨100, 60, 10⟩ "a" "b").player2.position
      ≠ ⟨gameWidth / 1.25 - 60 / 2, gameHeight / 2⟩ := by
  simp only [construct, resetPositions, Player.setPosition, Ball.setPosition,
    gameWidth, gameHeight, ne_eq, Vec2.mk.injEq, not_and]
  intro hx
  norm_num at hx

/-- Claim C7 (amended: the right player's x-offset is the full
`Player.DIAMETER`, not the radius): any `reset`, with or without a scoring
team, places the left player at `(width/4, height/2)`, the right player at
`(width/1.25 − Player.DIAMETER, height/2)` and the ball at
`(width/2, height/2)`, which are exactly the positions produced by
construction with the same constants — regardless of the state the reset
starts from. -/
theorem reset_positions_equal_setup (w : World) (scoreTeam : Option TeamSide)
    (p1Id p2Id : String) :
    (w.reset scoreTeam).player1.position = ⟨gameWidth / 4, gameHeight / 2⟩
    ∧ (w.reset scoreTeam).player2.position
      = ⟨gameWidth / 1.25 - w.consts.playerDiameter, gameHeight / 2⟩
    ∧ (w.reset scoreTeam).ball.position = ⟨gameWidth / 2, gameHeight / 2⟩
    ∧ (w.reset scoreTeam).player1.position
      = (construct w.consts p1Id p2Id).player1.position
    ∧ (w.reset scoreTeam).player2.position
      = (construct w.consts p1Id p2Id).player2.position
    ∧ (w.reset scoreTeam).ball.position
      = (construct w.consts p1Id p2Id).ball.position := by
  cases scoreTeam <;>
    simp [reset, resetPositions, construct, Player.setPosition, Ball.setPosition,
      Ball.resetVelocity]

/-- Claim C10: `reset` with no team argument re-centers both players and
the ball but leaves the ball's velocity exactly as it was (the
no-argument path never touches the velocity field). -/
theorem reset_no_team_keeps_ball_velocity (w : World) :
    (w.reset none).ball.velocity = w.ball.velocity
    ∧ (w.reset none).player1.position = ⟨gameWidth / 4, gameHeight / 2⟩
    ∧ (w.reset none).player2.position
      = ⟨gameWidth / 1.25 - w.consts.playerDiameter, gameHeight / 2⟩
    ∧ (w.reset none).ball.position = ⟨gameWidth / 2, gameHeight / 2⟩ := by
  refine ⟨rfl, ?_, ?_, ?_⟩ <;>
    simp [reset, resetPositions, Player.setPosition, Ball.setPosition]

/-- Claim C1: for every begin-contact notification with the handler
registered — a pair of the left team's goal sensor and the ball (in either
order) credits the right team; a pair of the right team's goal sensor and
the ball credits the left team; a pair in which neither body is the ball
produces no scoring event; and when both sensors are implicated in one
contact the left sensor's check wins the classification (deterministic
tie-break). -/
theorem beginContact_classification (w : World) (h : w.contactRegistered = true) :
    (handleBeginContact (BodyId.goalSensor TeamSide.left) BodyId.ballBody w).emitted
      = w.emitted ++ [{ allTeams := getTeams, teamThatScored := TeamSide.right }]
    ∧ (handleBeginContact BodyId.ballBody (BodyId.goalSensor TeamSide.left) w).emitted
      = w.emitted ++ [{ allTeams := getTeams, teamThatScored := TeamSide.right }]
    ∧ (handleBeginContact (BodyId.goalSensor TeamSide.right) BodyId.ballBody w).emitted
      = w.emitted ++ [{ allTeams := getTeams, teamThatScored := TeamSide.left }]
    ∧ (handleBeginContact BodyId.ballBody (BodyId.goalSensor TeamSide.right) w).emitted
      = w.emitted ++ [{ allTeams := getTeams, teamThatScored := TeamSide.left }]
    ∧ (∀ bodyA bodyB : BodyId, bodyA ≠ BodyId.ballBody → bodyB ≠ BodyId.ballBody →
        (handleBeginContact bodyA bodyB w).emitted = w.emitted)
    ∧ classifyContact (BodyId.goalSensor TeamSide.left) (BodyId.goalSensor TeamSide.right)
      = some TeamSide.right
    ∧ classifyContact (BodyId.goalSensor TeamSide.right) (BodyId.goalSensor TeamSide.left)
      = some TeamSide.right := by
  refine ⟨?_, ?_, ?_, ?_, ?_, ?_, ?_⟩
  · simp [handleBeginContact, classifyContact, h]
  · simp [handleBeginContact, classifyContact, h]
  · simp [handleBeginContact, classifyContact, h]
  · simp [handleBeginContact, classifyContact, h]
  · intro bodyA bodyB ha hb
    simp only [handleBeginContact, h, if_true]
    cases hc : classifyContact bodyA bodyB with
    | none => rfl
    | some team => simp [ha, hb]
  · simp [classifyContact]
  · simp [classifyContact]

/-- Witness for claim C1's theorem at a freshly constructed world (the
handler is registered by the constructor). -/
theorem beginContact_classification_witness :
    (handleBeginContact (BodyId.goalSensor TeamSide.left) BodyId.ballBody
        (construct ⟨100, 60, 10⟩ "a" "b")).emitted
      = [{ allTeams := getTeams, teamThatScored := TeamSide.right }]
    ∧ (handleBeginContact (BodyId.goalTop TeamSide.left) BodyId.player1Body
        (construct ⟨100, 60, 10⟩ "a" "b")).emitted = [] := by
  have h := beginContact_classification (construct ⟨100, 60, 10⟩ "a" "b") (by decide)
  refine ⟨?_, ?_⟩
  · rw [h.1]
    decide
  · rw [h.2.2.2.2.1 (BodyId.goalTop TeamSide.left) BodyId.player1Body
      (by decide) (by decide)]
    decide

/-- Claim C2 counterexample: the begin-contact handler does not re-center
the players.  Concretely: construct a match, let player "a" move for one
tick (it ends at x = 310, off its setup spot 300), then deliver a
validated scoring contact (left goal sensor and ball).  The handler emits
the scoring event, yet the player is still at x = 310, not re-centered to
the setup position `(width/4, height/2) = (300, 300)`. -/
theorem scoring_contact_does_not_recenter :
    ((handleBeginContact (BodyId.goalSensor TeamSide.left) BodyId.ballBody
        (onHeartbeat 1 10 (movePlayer "a" ⟨1, 0⟩
          (construct ⟨100, 60, 10⟩ "a" "b")))).emitted
      = [{ allTeams := getTeams, teamThatScored := TeamSide.right }])
    ∧ (handleBeginContact (BodyId.goalSensor TeamSide.left) BodyId.ballBody
        (onHeartbeat 1 10 (movePlayer "a" ⟨1, 0⟩
          (construct ⟨100, 60, 10⟩ "a" "b")))).player1.position
      ≠ ⟨gameWidth / 4, gameHeight / 2⟩ := by
  constructor
  · decide
  · simp only [construct, resetPositions, Player.setPosition, Ball.setPosition,
      gameWidth, gameHeight, movePlayer, Player.setDirection, onHeartbeat,
      applyDirections, clampBall, physicsStep, Player.onUpdate, Ball.onUpdate,
      handleBeginContact, classifyContact, Ball.resetVelocity, Vec2.normSq,
      Vec2.scale, ne_eq, Vec2.mk.injEq, not_and]
    norm_num

/-- Claim C2 (amended: the handler resets the ball's velocity to zero and
emits exactly one scoring event with the scoring team and the teams
snapshot, but does not re-center the players or the ball — re-centering is
the separate `reset` entry point): on every validated scoring contact
(registered handler, a credited team, the ball in the pair), the ball's
velocity becomes zero, exactly one event is appended to the emitter log,
and all positions are left untouched. -/
theorem scoring_contact_effects (w : World) (bodyA bodyB : BodyId) (team : TeamSide)
    (h : w.contactRegistered = true)
    (hclass : classifyContact bodyA bodyB = some team)
    (hball : bodyA = BodyId.ballBody ∨ bodyB = BodyId.ballBody) :
    (handleBeginContact bodyA bodyB w).ball.velocity = ⟨0, 0⟩
    ∧ (handleBeginContact bodyA bodyB w).emitted
      = w.emitted ++ [{ allTeams := getTeams, teamThatScored := team }]
    ∧ (handleBeginContact bodyA bodyB w).player1.position = w.player1.position
    ∧ (handleBeginContact bodyA bodyB w).player2.position = w.player2.position
    ∧ (handleBeginContact bodyA bodyB w).ball.position = w.ball.position := by
  simp only [handleBeginContact, h, if_true, hclass]
  simp [hball, Ball.resetVelocity]

/-- Witness for claim C2's amended theorem at a concrete scoring
contact. -/
theorem scoring_contact_effects_witness :
    (handleBeginContact BodyId.ballBody (BodyId.goalSensor TeamSide.right)
        (construct ⟨100, 60, 10⟩ "a" "b")).ball.velocity = ⟨0, 0⟩
    ∧ (handleBeginContact BodyId.ballBody (BodyId.goalSensor TeamSide.right)
        (construct ⟨100, 60, 10⟩ "a" "b")).emitted
      = [{ allTeams := getTeams, teamThatScored := TeamSide.left }] := by
  have h := scoring_contact_effects (construct ⟨100, 60, 10⟩ "a" "b")
    BodyId.ballBody (BodyId.goalSensor TeamSide.right) TeamSide.left
    (by decide) (by decide) (Or.inl rfl)
  exact ⟨h.1, h.2.1⟩

/-- Claim C3: a contact of the ball with the right team's goal sensor
emits a scoring event crediting the left team; a subsequent `reset` naming
the left team as scorer gives the ball the horizontal velocity
`(+BALL_INIT_VELOCITY, 0)` — non-zero, toward positive x (the right side)
— and symmetrically a reset naming the right team gives
`(−BALL_INIT_VELOCITY, 0)`. -/
theorem right_goal_credits_left_and_reset_bias (w v : World)
    (h : w.contactRegistered = true) :
    (handleBeginContact (BodyId.goalSensor TeamSide.right) BodyId.ballBody w).emitted
      = w.emitted ++ [{ allTeams := getTeams, teamThatScored := TeamSide.left }]
    ∧ (v.reset (some TeamSide.left)).ball.velocity = ⟨ballInitVelocity, 0⟩
    ∧ 0 < ballInitVelocity
    ∧ (v.reset (some TeamSide.right)).ball.velocity = ⟨-ballInitVelocity, 0⟩
    ∧ -ballInitVelocity < 0 := by
  refine ⟨?_, ?_, ?_, ?_, ?_⟩
  · simp [handleBeginContact, classifyContact, h]
  · simp [reset, resetPositions, Ball.resetVelocity, Ball.setPosition,
      Player.setPosition]
  · norm_num [ballInitVelocity]
  · simp [reset, resetPositions, Ball.resetVelocity, Ball.setPosition,
      Player.setPosition]
  · norm_num [ballInitVelocity]

/-- Witness for claim C3's theorem at a freshly constructed world. -/
theorem right_goal_credits_left_and_reset_bias_witness :
    (handleBeginContact (BodyId.goalSensor TeamSide.right) BodyId.ballBody
        (construct ⟨100, 60, 10⟩ "a" "b")).emitted
      = [{ allTeams := getTeams, teamThatScored := TeamSide.left }]
    ∧ 0 < ballInitVelocity := by
  have h := right_goal_credits_left_and_reset_bias
    (construct ⟨100, 60, 10⟩ "a" "b") (construct ⟨100, 60, 10⟩ "a" "b") (by decide)
  refine ⟨?_, h.2.2.1⟩
  · rw [h.1]
    decide

/-- Claim C8: for a player id belonging to neither player, `movePlayer`
and `setPlayerReady` leave the entire match state unchanged (and are
total, hence cannot throw), and `setPlayerReady` returns `false`.  The
source additionally writes a log line, which the model does not track. -/
theorem unknown_id_is_noop (w : World) (id : String) (dir : Vec2)
    (h1 : id ≠ w.player1.socketId) (h2 : id ≠ w.player2.socketId) :
    movePlayer id dir w = w ∧ w.setPlayerReady id = (false, w) := by
  have h1' : ¬(w.player1.socketId = id) := fun h => h1 h.symm
  have h2' : ¬(w.player2.socketId = id) := fun h => h2 h.symm
  constructor
  · simp [movePlayer, h1', h2']
  · simp [setPlayerReady, h1', h2']

/-- Witness for claim C8's theorem: id "z" is in no match between "a" and
"b". -/
theorem unknown_id_is_noop_witness :
    movePlayer "z" ⟨1, 0⟩ (construct ⟨100, 60, 10⟩ "a" "b")
      = construct ⟨100, 60, 10⟩ "a" "b"
    ∧ (construct ⟨100, 60, 10⟩ "a" "b").setPlayerReady "z"
      = (false, construct ⟨100, 60, 10⟩ "a" "b") :=
  unknown_id_is_noop (construct ⟨100, 60, 10⟩ "a" "b") "z" ⟨1, 0⟩
    (by decide) (by decide)

/-- With the contact handler unregistered, a begin-contact notification
changes nothing. -/
theorem handleBeginContact_unregistered (bodyA bodyB : BodyId) (w : World)
    (h : w.contactRegistered = false) :
    handleBeginContact bodyA bodyB w = w := by
  simp [handleBeginContact, h]

/-- With the contact handler unregistered, folding any list of
begin-contact notifications changes nothing. -/
theorem foldContacts_unregistered (contacts : List (BodyId × BodyId)) (w : World)
    (h : w.contactRegistered = false) :
    contacts.foldl (fun v c => handleBeginContact c.1 c.2 v) w = w := by
  induction contacts with
  | nil => rfl
  | cons c rest ih =>
      simp only [List.foldl_cons, handleBeginContact_unregistered c.1 c.2 w h]
      exact ih

/-- A heartbeat tick (with its contact notifications) on a world whose
listeners are cleared keeps the listeners cleared and emits nothing. -/
theorem tick_after_clear_silent (timeStep : ℚ) (maxSubSteps : ℕ)
    (contacts : List (BodyId × BodyId)) (w : World)
    (h : w.contactRegistered = false) :
    (tickWithContacts timeStep maxSubSteps contacts w).contactRegistered = false
    ∧ (tickWithContacts timeStep maxSubSteps contacts w).emitted = w.emitted
    ∧ (tickWithContacts timeStep maxSubSteps contacts w).goalListenerCount
      = w.goalListenerCount := by
  have hreg : (onHeartbeat timeStep maxSubSteps w).contactRegistered = false := by
    simp [onHeartbeat, physicsStep, clampBall, applyDirections, h]
  unfold tickWithContacts
  rw [foldContacts_unregistered contacts _ hreg]
  refine ⟨hreg, ?_, ?_⟩ <;>
    simp [onHeartbeat, physicsStep, clampBall, applyDirections]

/-- Claim C9: after `clear()`, every further heartbeat tick — with any
contact notifications the engine might deliver — completes (the model is
total), emits no scoring event (the log stays exactly as at clear time),
and resurrects no listener: the contact handler stays unregistered and
the goal emitter's listener count stays zero. -/
theorem clear_then_heartbeats_silent (w : World)
    (ticks : List (ℚ × ℕ × List (BodyId × BodyId))) :
    (runTicks w.clear ticks).emitted = w.emitted
    ∧ (runTicks w.clear ticks).contactRegistered = false
    ∧ (runTicks w.clear ticks).goalListenerCount = 0 := by
  suffices h : ∀ (ts : List (ℚ × ℕ × List (BodyId × BodyId))) (v : World),
      v.contactRegistered = false →
      (runTicks v ts).emitted = v.emitted
      ∧ (runTicks v ts).contactRegistered = false
      ∧ (runTicks v ts).goalListenerCount = v.goalListenerCount by
    have hc : (w.clear).contactRegistered = false := rfl
    have := h ticks w.clear hc
    refine ⟨?_, this.2.1, ?_⟩
    · rw [this.1]
      rfl
    · rw [this.2.2]
      rfl
  intro ts
  induction ts with
  | nil => exact fun v hv => ⟨rfl, hv, rfl⟩
  | cons t rest ih =>
      intro v hv
      have ht := tick_after_clear_silent t.1 t.2.1 t.2.2 v hv
      have := ih (tickWithContacts t.1 t.2.1 t.2.2 v) ht.1
      refine ⟨?_, this.2.1, ?_⟩
      · rw [runTicks, this.1, ht.2.1]
      · rw [runTicks, this.2.2, ht.2.2]

/-- `setPlayerReady` never changes the players' socket ids. -/
theorem setPlayerReady_socketIds (w : World) (id : String) :
    (w.setPlayerReady id).2.player1.socketId = w.player1.socketId
    ∧ (w.setPlayerReady id).2.player2.socketId = w.player2.socketId := by
  unfold setPlayerReady
  split_ifs <;> exact ⟨rfl, rfl⟩

/-- After a `setPlayerReady` call, the first player is ready iff it
already was or the id addressed it. -/
theorem setPlayerReady_ready1 (w : World) (id : String) :
    ((w.setPlayerReady id).2.player1.isReady = true ↔
      (w.player1.isReady = true ∨ w.player1.socketId = id)) := by
  unfold setPlayerReady
  split_ifs <;> simp_all

/-- After a `setPlayerReady` call, the second player is ready iff it
already was or the id addressed it — given the two socket ids are
distinct (so the first player's branch cannot shadow the second's). -/
theorem setPlayerReady_ready2 (w : World) (id : String)
    (hne : w.player1.socketId ≠ w.player2.socketId) :
    ((w.setPlayerReady id).2.player2.isReady = true ↔
      (w.player2.isReady = true ∨ w.player2.socketId = id)) := by
  unfold setPlayerReady
  split_ifs with h1 h2
  · have : ¬(w.player2.socketId = id) := fun h => hne (h1.trans h.symm)
    simp [this]
  · simp [h2]
  · simp [h1, h2]

/-- The boolean returned by `setPlayerReady` is true exactly when the id
addressed a player of the match and both players are ready afterwards. -/
theorem setPlayerReady_fst (w : World) (id : String) :
    ((w.setPlayerReady id).1 = true ↔
      ((w.player1.socketId = id ∨ w.player2.socketId = id)
        ∧ (w.setPlayerReady id).2.player1.isReady = true
        ∧ (w.setPlayerReady id).2.player2.isReady = true)) := by
  unfold setPlayerReady
  split_ifs <;> simp_all

/-- Characterization of the whole `setPlayerReady` call sequence: with
distinct player ids, the i-th call returns true exactly when its id
addresses a player of the match and both player ids occur among the first
i+1 calls (or the corresponding player was already ready at the start). -/
theorem readyResults_characterization (ids : List String) :
    ∀ (w : World) (i : ℕ) (hi : i < ids.length),
    w.player1.socketId ≠ w.player2.socketId →
    ((readyResults w ids).getD i false = true ↔
      ((w.player1.socketId = ids.get ⟨i, hi⟩ ∨ w.player2.socketId = ids.get ⟨i, hi⟩)
        ∧ (w.player1.isReady = true ∨ w.player1.socketId ∈ ids.take (i + 1))
        ∧ (w.player2.isReady = true ∨ w.player2.socketId ∈ ids.take (i + 1)))) := by
  induction ids with
  | nil =>
      intro w i hi
      exact absurd hi (Nat.not_lt_zero i)
  | cons id rest ih =>
      intro w i hi hne
      cases i with
      | zero =>
          show ((w.setPlayerReady id).1 :: readyResults (w.setPlayerReady id).2 rest).getD
              0 false = true ↔ _
          rw [List.getD_cons_zero]
          rw [setPlayerReady_fst, setPlayerReady_ready1, setPlayerReady_ready2 w id hne]
          simp only [List.get, List.take_succ_cons, List.take_zero, List.mem_singleton]
      | succ i =>
          have hi' : i < rest.length := Nat.lt_of_succ_lt_succ hi
          have hs := setPlayerReady_socketIds w id
          have hne' : (w.setPlayerReady id).2.player1.socketId
              ≠ (w.setPlayerReady id).2.player2.socketId := by
            rw [hs.1, hs.2]; exact hne
          show ((w.setPlayerReady id).1 :: readyResults (w.setPlayerReady id).2 rest).getD
              (i + 1) false = true ↔ _
          rw [List.getD_cons_succ]
          rw [ih (w.setPlayerReady id).2 i hi' hne']
          rw [hs.1, hs.2]
          rw [setPlayerReady_ready1, setPlayerReady_ready2 w id hne]
          simp only [List.get, List.take_succ_cons, List.mem_cons]
          constructor
          · rintro ⟨hg, ha, hb⟩
            exact ⟨hg, by tauto, by tauto⟩
          · rintro ⟨hg, ha, hb⟩
            exact ⟨hg, by tauto, by tauto⟩

/-- Claim C4: starting from a freshly constructed match with distinct
player ids, the i-th `setPlayerReady` call of any call sequence returns
true exactly when its id is one of the two players' ids and both players'
ids occur among the first i+1 calls — so it returns false as long as
fewer than both players have been marked ready, returns true on the call
that makes both ready, and keeps returning true on every later call with
an in-match id. -/
theorem setPlayerReady_sequence (c : Consts) (p1Id p2Id : String) (hne : p1Id ≠ p2Id)
    (ids : List String) (i : ℕ) (hi : i < ids.length) :
    ((readyResults (construct c p1Id p2Id) ids).getD i false = true ↔
      ((p1Id = ids.get ⟨i, hi⟩ ∨ p2Id = ids.get ⟨i, hi⟩)
        ∧ p1Id ∈ ids.take (i + 1) ∧ p2Id ∈ ids.take (i + 1))) := by
  have h1 : (construct c p1Id p2Id).player1.socketId = p1Id := rfl
  have h2 : (construct c p1Id p2Id).player2.socketId = p2Id := rfl
  have hr1 : (construct c p1Id p2Id).player1.isReady = false := rfl
  have hr2 : (construct c p1Id p2Id).player2.isReady = false := rfl
  have hne' : (construct c p1Id p2Id).player1.socketId
      ≠ (construct c p1Id p2Id).player2.socketId := by
    rw [h1, h2]; exact hne
  rw [readyResults_characterization ids (construct c p1Id p2Id) i hi hne']
  rw [h1, h2, hr1, hr2]
  simp

/-- Witness for claim C4's theorem: in a match between "a" and "b", the
sequence ["b", "a"] returns true on its second call (which makes both
players ready). -/
theorem setPlayerReady_sequence_witness :
    (readyResults (construct ⟨100, 60, 10⟩ "a" "b") ["b", "a"]).getD 1 false = true :=
  (setPlayerReady_sequence ⟨100, 60, 10⟩ "a" "b" (by decide) ["b", "a"] 1
    (by decide)).mpr (by decide)

end AirHockey
